import Mathlib

/-!
# Shallow embedding of `django_rest_params` (src/django_rest_params/__init__.py)

The module exports a single decorator factory `params(**kwargs)` that

* parses its keyword arguments into a dictionary of `ParamValidator`
  objects (decoration time), and
* wraps a request handler so that each call first validates the request
  parameters (`wrapped_request_fn`), returning a 400 response on the first
  failure and otherwise calling the handler with the validated values
  merged into its keyword arguments.

Python values that flow through this code are modelled by `Val`.
Python floats are modelled as rationals (`Rat`); the library only
compares, parses and prints them, so no floating-point rounding is
involved in any property below.  Python `None` is `Val.vNone`, and a
fetched model instance is `Val.vModel id`.
-/

namespace DjangoRestParams

/-- A Python value as used by this library: the contents of `request.GET`
and `request.DATA`, coerced parameter values, configuration values and
defaults. -/
inductive Val where
  | vInt (n : Int)
  | vFloat (q : Rat)
  | vStr (s : String)
  | vBool (b : Bool)
  | vNone
  | vModel (id : Nat)
  | vList (vs : List Val)

/-- Is this value a Python `list` (`isinstance(param, list)`)? -/
def Val.isVList : Val → Bool
  | .vList _ => true
  | _ => false

/-- Numeric view of a value, for Python arithmetic/comparison coercions
(`bool` counts as 0/1, as in Python). -/
def Val.asRat : Val → Option Rat
  | .vInt n => some (n : Rat)
  | .vFloat q => some q
  | .vBool b => some (if b then 1 else 0)
  | _ => none

/-- Python truthiness (`if param:`): zero numbers, the empty string,
empty lists and `None` are falsy; everything else is truthy. -/
def truthy : Val → Bool
  | .vInt n => decide (n ≠ 0)
  | .vFloat q => decide (q ≠ 0)
  | .vStr s => !(decide (s = ""))
  | .vBool b => b
  | .vNone => false
  | .vModel _ => true
  | .vList vs => !vs.isEmpty

/-- Python `==` between the values this library handles: numbers (and
booleans) compare across types by numeric value, strings by content,
model instances by primary key.  Lists of values never occur among
enumeration options here, so the elementwise list comparison Python
would perform is collapsed to `false` (the catch-all numeric branch
yields `false` for them). -/
def pyEq (a b : Val) : Bool :=
  match a, b with
  | .vStr x, .vStr y => x == y
  | .vNone, .vNone => true
  | .vModel x, .vModel y => x == y
  | x, y =>
    match x.asRat, y.asRat with
    | some u, some v => decide (u = v)
    | _, _ => false

/-- Python `param in options` membership test (tuple/set/frozenset/list
enumeration kinds), using Python equality. -/
def pyMem (v : Val) (opts : List Val) : Bool :=
  opts.any (fun o => pyEq v o)

/-! ## Python string primitives

All string helpers are written by plain structural recursion over the
character list so that every concrete instance reduces definitionally. -/

/-- Drop leading whitespace from a character list. -/
def dropSpaces : List Char → List Char
  | [] => []
  | c :: cs =>
    if c == ' ' || c == '\t' || c == '\n' || c == '\r' then dropSpaces cs
    else c :: cs

/-- Python `str.strip()`: remove surrounding whitespace. -/
def pyStrip (s : String) : String :=
  String.mk ((dropSpaces ((dropSpaces s.data).reverse)).reverse)

/-- Split a character list on a separator character; like Python
`str.split(sep)`, the empty input yields one empty field. -/
def splitOnChar (sep : Char) : List Char → List (List Char)
  | [] => [[]]
  | c :: cs =>
    if c == sep then [] :: splitOnChar sep cs
    else
      match splitOnChar sep cs with
      | g :: gs => (c :: g) :: gs
      | [] => [[c]]

/-- Python `str(param).split(',')` on an already-string value. -/
def pySplitComma (s : String) : List String :=
  (splitOnChar ',' s.data).map String.mk

/-- Parse a nonempty all-digit character list into a natural number. -/
def digitsAux : List Char → Nat → Option Nat
  | [], acc => some acc
  | c :: cs, acc =>
    if c.isDigit then digitsAux cs (acc * 10 + (c.toNat - '0'.toNat))
    else none

/-- `none` unless the list is nonempty and all digits. -/
def pyNatParse? (cs : List Char) : Option Nat :=
  if cs.isEmpty then none else digitsAux cs 0

/-- Python `int(string)`: optional surrounding whitespace, optional one
sign, then decimal digits. -/
def pyStrInt? (s : String) : Option Int :=
  match (pyStrip s).data with
  | '-' :: rest => (pyNatParse? rest).map (fun n => -(n : Int))
  | '+' :: rest => (pyNatParse? rest).map (fun n => (n : Int))
  | cs => (pyNatParse? cs).map (fun n => (n : Int))

/-- Python `float(string)`: optional whitespace and sign, digits with an
optional single decimal point (at least one digit overall).  Exponent
notation is not modelled; no claim exercises it. -/
def pyStrFloat? (s : String) : Option Rat :=
  let t := (pyStrip s).data
  let signAndDigits : Bool × List Char :=
    match t with
    | '-' :: rest => (true, rest)
    | '+' :: rest => (false, rest)
    | _ => (false, t)
  let r? : Option Rat :=
    match splitOnChar '.' signAndDigits.2 with
    | [a] => (pyNatParse? a).map (fun n => (n : Rat))
    | [a, b] =>
      if a.isEmpty && b.isEmpty then none
      else
        match (if a.isEmpty then some 0 else pyNatParse? a),
              (if b.isEmpty then some 0 else pyNatParse? b) with
        | some na, some nb =>
          some ((na : Rat) + (nb : Rat) / ((10 : Rat) ^ b.length))
        | _, _ => none
    | _ => none
  r?.map (fun r => if signAndDigits.1 then -r else r)

/-- Python `int(param)` over the value kinds this library can receive:
ints unchanged, floats truncated toward zero, booleans as 0/1, strings
parsed; everything else raises (here: `none`). -/
def pyInt? : Val → Option Int
  | .vInt n => some n
  | .vFloat q => some (Int.tdiv q.num (q.den : Int))
  | .vBool b => some (if b then 1 else 0)
  | .vStr s => pyStrInt? s
  | _ => none

/-- Python `float(param)`. -/
def pyFloat? : Val → Option Rat
  | .vFloat q => some q
  | .vInt n => some ((n : Rat))
  | .vBool b => some (if b then 1 else 0)
  | .vStr s => pyStrFloat? s
  | _ => none

/-- Python `str(param)` for the values that reach it in this library
(GET values are strings in practice; the numeric renderings cover the
test harness, which passes numbers directly). -/
def pyStr : Val → String
  | .vStr s => s
  | .vInt n => toString n
  | .vFloat q => toString q
  | .vBool b => if b then "True" else "False"
  | .vNone => "None"
  | .vModel i => toString i
  | .vList _ => "[...]"

/-! ## ParamValidator (the per-parameter spec) -/

/-- The external model store collaborator (a Django model class, reached
through `param_type.objects`): a single-record lookup taking the
`deferred` projection hint (`.only('id')` applied when true), the lookup
field name and the sought value, returning the record or nothing. -/
structure ModelDesc where
  get : Bool → String → Val → Option Val

/-- The possible values of `validator.param_type` as set at
configuration time (plus `pOther` for values no `check_type` branch
handles, including the class default `None`). -/
inductive PType where
  | pInt
  | pFloat
  | pStr
  | pBool
  | pTuple (options : List Val)
  | pModel (m : ModelDesc)
  | pOther

def PType.isStr : PType → Bool
  | .pStr => true
  | _ => false

def PType.isModel : PType → Bool
  | .pModel _ => true
  | _ => false

/-- Does `check_value` derive a numeric `val` for this type
(`param_type == int or param_type == float` gives the value itself,
`param_type == str` gives the length)? -/
def PType.usesBounds : PType → Bool
  | .pInt | .pFloat | .pStr => true
  | _ => false

/-- One `ParamValidator` instance (class at src line 16, defaults at
lines 17-43).  Numeric bounds are `Option Rat` (`None` in Python;
`int` and `float` bound values are both rationals here). -/
structure ParamValidator where
  param_name : String
  param_type : PType
  allow_GET : Bool := false
  allow_POST : Bool := false
  gt : Option Rat := none
  gte : Option Rat := none
  lt : Option Rat := none
  lte : Option Rat := none
  eq : Option Rat := none
  optional : Bool := false
  default : Val := .vNone
  many : Bool := false
  deferred : Bool := true
  field : String := "id"

/-- Python truthiness of a bound attribute (`if self.eq:` etc.): `None`
and the number 0 are falsy. -/
def bSet : Option Rat → Bool
  | none => false
  | some q => !(decide (q = 0))

/-- Error messages for `check_type` failures.  Inner message text
follows the source and the exceptions Python raises; exact renderings
of Python `repr` are simplified, which no claim depends on. -/
def invalidOptionMsg (param : Val) (opts : List Val) : String :=
  "invalid option " ++ pyStr param ++ ": Must be one of: "
    ++ String.intercalate ", " (opts.map pyStr)

def intCoerceMsg (param : Val) : String :=
  "invalid literal for int() with base 10: " ++ pyStr param

def floatCoerceMsg (param : Val) : String :=
  "could not convert string to float: " ++ pyStr param

def lookupNotFoundMsg : String := "matching query does not exist."

/-- In the source this branch interpolates `self.param_type.____name__`
(sic), so it actually raises an AttributeError; either way an exception
escapes and is caught by the request wrapper. -/
def invalidParamTypeMsg : String := "Invalid param type"

/-- `ParamValidator.check_type`, src lines 50-75: check/coerce one raw
value against the declared type, without taking `many` into account.
The tuple (enumeration) branch mirrors `isinstance(self.param_type,
TUPLE_TYPES)` and is checked first, as in the source; `assert
isinstance(param, (str, unicode))` raises a bare AssertionError whose
`str()` is the empty string. -/
def ParamValidator.check_type (self : ParamValidator) (param : Val) :
    Except String Val :=
  match self.param_type with
  | .pTuple options =>
    if pyMem param options then .ok param
    else .error (invalidOptionMsg param options)
  | .pInt =>
    match pyInt? param with
    | some n => .ok (.vInt n)
    | none => .error (intCoerceMsg param)
  | .pFloat =>
    match pyFloat? param with
    | some q => .ok (.vFloat q)
    | none => .error (floatCoerceMsg param)
  | .pStr =>
    match param with
    | .vStr s => .ok (.vStr s)
    | _ => .error ""
  | .pBool => .ok (.vBool (truthy param))
  | .pModel m =>
    match m.get self.deferred self.field param with
    | some obj => .ok obj
    | none => .error lookupNotFoundMsg
  | .pOther => .error invalidParamTypeMsg

/-- The raise chain of `check_value`, src lines 86-96, on the derived
numeric `val`: each bound is consulted only if truthy (set and
nonzero); a failed `eq` comparison raises before any other bound is
looked at, and otherwise the bounds fire in the order `lt`, `lte`,
`gt`, `gte` with the first raise ending the chain.  (The `eq` message
text says "less than" in the source.) -/
def ParamValidator.checkBoundsVal (self : ParamValidator) (val : Rat) :
    Except String Unit :=
  if bSet self.eq && !(decide (val = self.eq.getD 0)) then
    .error ("must be less than " ++ toString (self.eq.getD 0) ++ "!")
  else if bSet self.lt && decide (val ≥ self.lt.getD 0) then
    .error ("must be less than " ++ toString (self.lt.getD 0) ++ "!")
  else if bSet self.lte && decide (val > self.lte.getD 0) then
    .error ("must be less than or equal to " ++ toString (self.lte.getD 0) ++ "!")
  else if bSet self.gt && decide (val ≤ self.gt.getD 0) then
    .error ("must be greater than " ++ toString (self.gt.getD 0) ++ "!")
  else if bSet self.gte && decide (val < self.gte.getD 0) then
    .error ("must be greater than or equal to " ++ toString (self.gte.getD 0) ++ "!")
  else .ok ()

/-- `ParamValidator.check_value`, src lines 77-100: derive `val` (the
value itself for int/float types, the length for str, `None`
otherwise), do nothing when `val` is falsy (`if val:` — so `None` and
0 both skip every bound), and otherwise run the bound chain, prefixing
any failure with "Length " for str types and "Value " otherwise. -/
def ParamValidator.check_value (self : ParamValidator) (param : Val) :
    Except String Unit :=
  let val : Option Rat :=
    match self.param_type with
    | .pInt | .pFloat => param.asRat
    | .pStr =>
      match param with
      | .vStr s => some ((s.length : Nat) : Rat)
      | _ => none
    | _ => none
  match val with
  | none => .ok ()
  | some v =>
    if decide (v = 0) then .ok ()
    else
      match self.checkBoundsVal v with
      | .ok _ => .ok ()
      | .error msg =>
        .error ((if self.param_type.isStr then "Length " else "Value ") ++ msg)

/-! ## Configuration parsing (decoration time)

Only the branch the claims exercise is embedded: the no-modifier branch
of the keyword loop of `params`, which validates and stores the
type/kind declaration (src lines 112-117). -/

/-- A value passed as the type/kind declaration of a configuration key:
the primitive type objects `int`, `float`, `str`, `bool`, any other
type or plain value (`other`), an object exposing `_default_manager`
(a Django model class), or a tuple/set/frozenset/list of allowed
values. -/
inductive ConfigTypeVal where
  | tyInt
  | tyFloat
  | tyStr
  | tyBool
  | other (descr : String)
  | model (m : ModelDesc)
  | tupleOf (vs : List Val)

def invalidTypeMsg (k : String) : String :=
  "Invalid type for " ++ k ++ ": value is not a valid type"

/-- Src lines 112-117: for a key with no `__modifier`, the value is the
type.  Values with `_default_manager` (models) are exempt from the
check; otherwise the value must be an instance of `TUPLE_TYPES` or a
member of `VALID_TYPES = int, float, str` — note `bool` is *not* in
`VALID_TYPES` (and `bool == int` is false), so `bool` raises.  On
success `obj.param_type` is set to the value. -/
def setParamType (k : String) (v : ConfigTypeVal) : Except String PType :=
  match v with
  | .model m => .ok (.pModel m)
  | .tupleOf vs => .ok (.pTuple vs)
  | .tyInt => .ok .pInt
  | .tyFloat => .ok .pFloat
  | .tyStr => .ok .pStr
  | .tyBool => .error (invalidTypeMsg k)
  | .other _ => .error (invalidTypeMsg k)

/-! ## Request dispatch (`wrapped_request_fn`, src lines 171-225) -/

/-- The request surface the wrapper consumes: the HTTP method string
(`request.META['REQUEST_METHOD']`), the GET-sourced mapping
(`request.GET`) and the POST-sourced mapping (`request.DATA`). -/
structure Request where
  method : String
  GET : List (String × Val)
  DATA : List (String × Val)

/-- Python `mapping.get(key, None)`, on an association list. -/
def dictGet (d : List (String × Val)) (k : String) : Option Val :=
  match d with
  | [] => none
  | (k', v) :: rest => if k' == k then some v else dictGet rest k

/-- Python `kwargs[key] = v` on an association list. -/
def setKw (kw : List (String × Val)) (k : String) (v : Val) :
    List (String × Val) :=
  match kw with
  | [] => [(k, v)]
  | (k', v') :: rest =>
    if k' == k then (k, v) :: rest else (k', v') :: setKw rest k v

def HTTP_400_BAD_REQUEST : Nat := 400

/-- The outcome of one call to the decorated function: either a
`Response({'error': body}, status)` returned before the handler runs,
or the handler invoked with the validated keyword mapping. -/
inductive CallOutcome where
  | errorResponse (status : Nat) (body : String)
  | callHandler (kwargs : List (String × Val))

/-- Src line 179: `'POST' if request_method == 'POST' or request_method
== 'PUT' else 'GET'`. -/
def defaultParamMethod (request_method : String) : String :=
  if request_method == "POST" || request_method == "PUT" then "POST" else "GET"

/-- Src lines 184-187: the effective `(allow_GET, allow_POST)` pair for
one validator — the explicit flags, unless neither is set, in which
case exactly the default method for this request is allowed. -/
def effectiveMethods (default_param_method : String) (v : ParamValidator) :
    Bool × Bool :=
  let use_default_methods := !v.allow_GET && !v.allow_POST
  ((if use_default_methods then default_param_method == "GET" else v.allow_GET),
   (if use_default_methods then default_param_method == "POST" else v.allow_POST))

/-- Src lines 189-196: find the parameter value and the source it came
from.  `request.DATA` is consulted first when POST is allowed; if the
result is falsy (`if not param:` — absent, `None`, empty or zero) and
GET is allowed, `request.GET` is consulted.  The second component is
the local `param_type` tag (`""` stands for the variable being left
unassigned, which the source never reads in that case). -/
def findParam (req : Request) (allow_GET allow_POST : Bool)
    (param_name : String) : Val × String :=
  let fromPost : Val × String :=
    if allow_POST then ((dictGet req.DATA param_name).getD .vNone, "POST")
    else (.vNone, "")
  if !(truthy fromPost.1) && allow_GET then
    ((dictGet req.GET param_name).getD .vNone, "GET")
  else fromPost

/-- One iteration of the validator loop, src lines 181-222: method
resolution, lookup, absence/default handling, then type and value
checking (the `many` branch splits a GET value on commas, keeps a POST
list as-is and wraps any other POST value; it coerces every element
first, then value-checks every element).  Returns the value to bind
under `arg_name`, or the message of the exception caught at line 219. -/
def processParam (default_param_method : String) (req : Request)
    (v : ParamValidator) : Except String Val :=
  let methods := effectiveMethods default_param_method v
  let found := findParam req methods.1 methods.2 v.param_name
  if !(truthy found.1) then
    if !v.optional then .error "Param is missing"
    else .ok v.default
  else if v.many then
    let raws : List Val :=
      if found.2 == "GET" then (pySplitComma (pyStr found.1)).map .vStr
      else
        match found.1 with
        | .vList vs => vs
        | p => [p]
    match raws.mapM v.check_type with
    | .error e => .error e
    | .ok coerced =>
      match coerced.forM v.check_value with
      | .error e => .error e
      | .ok _ => .ok (.vList coerced)
  else
    match v.check_type found.1 with
    | .error e => .error e
    | .ok p =>
      match v.check_value p with
      | .error e => .error e
      | .ok _ => .ok p

/-- The `for arg_name, validator in validators.items()` loop of
`wrapped_request_fn` (src lines 181-224): on the first failing
parameter, return the 400 response with body `{'error': 'Invalid param
"<param_name>": <reason>'}` (src line 220) without touching the
remaining validators; otherwise bind each validated value and finally
call the handler with the accumulated kwargs. -/
def runValidators (default_param_method : String) (req : Request) :
    List (String × ParamValidator) → List (String × Val) → CallOutcome
  | [], kwargs => .callHandler kwargs
  | (arg_name, v) :: rest, kwargs =>
    match processParam default_param_method req v with
    | .error e =>
      .errorResponse HTTP_400_BAD_REQUEST
        ("Invalid param \"" ++ v.param_name ++ "\": " ++ e)
    | .ok val => runValidators default_param_method req rest (setKw kwargs arg_name val)

/-- `wrapped_request_fn`, src lines 171-225, after the request object
has been extracted from the positional arguments: validate every
declared parameter against the request and either short-circuit with a
400 response or call the wrapped handler with the validated kwargs
merged into the incoming ones.  `validators` is the decoration-time
validator dictionary in iteration order. -/
def wrapped_request_fn (validators : List (String × ParamValidator))
    (req : Request) (kwargs : List (String × Val)) : CallOutcome :=
  runValidators (defaultParamMethod req.method) req validators kwargs

/-! ## Theorems about the embedded program -/

/-- C8, counterexample: the claim says the primitive type marker
`boolean` is accepted as a type/kind declaration, but `VALID_TYPES =
int, float, str` (src line 14) does not contain `bool` (and `bool ==
int` is false in Python), so declaring a parameter of type `bool`
raises a ConfigError at decoration time. -/
theorem bool_type_rejected :
    setParamType "my_bool" ConfigTypeVal.tyBool
      = Except.error (invalidTypeMsg "my_bool") := rfl

/-- The type declarations the amended C8 claim accepts: a model
descriptor, a tuple/set/frozenset/list of allowed values, or one of the
primitive markers integer, float, text — boolean is excluded. -/
def acceptedTypeDecl : ConfigTypeVal → Bool
  | .model _ => true
  | .tupleOf _ => true
  | .tyInt => true
  | .tyFloat => true
  | .tyStr => true
  | .tyBool => false
  | .other _ => false

/-- C8, amended: a configuration key without a modifier has its value
accepted as the type/kind declaration exactly when the value is a
primitive type marker among integer, float and text (not boolean), an
object-relational model descriptor, or a tuple/set/frozenset/list of
allowed values; any other value raises ConfigError at decoration time. -/
theorem type_declaration_acceptance (k : String) (v : ConfigTypeVal) :
    (∃ t, setParamType k v = Except.ok t) ↔ acceptedTypeDecl v = true := by
  cases v <;> simp [setParamType, acceptedTypeDecl]

/-- A store whose lookup field is "name": the raw value "Cam Saul"
resolves to a record, but no record is found when the sought value is
itself a model instance. -/
def c9store : ModelDesc :=
  ⟨fun _ f v =>
    match v with
    | .vStr s => if f == "name" && s == "Cam Saul" then some (.vModel 1) else none
    | _ => none⟩

def c9spec : ParamValidator :=
  { param_name := "user", param_type := .pModel c9store, field := "name" }

/-- C9, counterexample: for a ForeignLookup spec, `check_type` accepts
the raw value and coerces it to the fetched record, but re-submitting
that record runs `objects.get(name=record)` against the store, which
finds nothing — so coercion is not idempotent for the ForeignLookup
kind. -/
theorem lookup_not_idempotent :
    c9spec.check_type (.vStr "Cam Saul") = Except.ok (.vModel 1)
  ∧ c9spec.check_type (.vModel 1) = Except.error lookupNotFoundMsg := ⟨rfl, rfl⟩

/-- C9, amended: for every spec whose kind is not ForeignLookup,
submitting a value accepted by `check_type` again in its coerced form
is accepted and returns the same value unchanged (idempotent
coercion). -/
theorem check_type_idempotent_nonmodel (v : ParamValidator) (x c : Val)
    (hk : v.param_type.isModel = false) (h : v.check_type x = Except.ok c) :
    v.check_type c = Except.ok c := by
  obtain ⟨pn, pt, aG, aP, g, ge, l, le, e, o, d, mn, df, fl⟩ := v
  cases pt with
  | pInt =>
    simp only [ParamValidator.check_type] at h ⊢
    cases hx : pyInt? x with
    | none => rw [hx] at h; cases h
    | some n =>
      rw [hx] at h
      cases h
      rfl
  | pFloat =>
    simp only [ParamValidator.check_type] at h ⊢
    cases hx : pyFloat? x with
    | none => rw [hx] at h; cases h
    | some q =>
      rw [hx] at h
      cases h
      rfl
  | pStr =>
    cases x <;> simp only [ParamValidator.check_type] at h ⊢ <;> cases h
    rfl
  | pBool =>
    simp only [ParamValidator.check_type] at h ⊢
    cases h
    cases hx : truthy x <;> rfl
  | pTuple options =>
    simp only [ParamValidator.check_type] at h ⊢
    by_cases hm : pyMem x options = true
    · rw [if_pos hm] at h
      cases h
      rw [if_pos hm]
    · rw [if_neg hm] at h
      cases h
  | pModel m => cases hk
  | pOther =>
    simp only [ParamValidator.check_type] at h
    cases h

def c9intSpec : ParamValidator := { param_name := "n", param_type := .pInt }

/-- Witness for the amended C9: a string accepted by an integer spec is
coerced to the integer 5, and re-submitting 5 yields 5 again. -/
theorem check_type_idempotent_nonmodel_witness :
    c9intSpec.check_type (.vInt 5) = Except.ok (.vInt 5) :=
  check_type_idempotent_nonmodel c9intSpec (.vStr "5") (.vInt 5) rfl rfl

/-- C4, confirmed: when a spec declares no method explicitly, exactly
one source is allowed for the request — POST for POST/PUT requests, GET
otherwise; and both sources can only be allowed together when the spec
explicitly set both flags. -/
theorem default_method_rule (m : String) (v : ParamValidator) :
    (v.allow_GET = false → v.allow_POST = false →
       effectiveMethods (defaultParamMethod m) v
         = if m = "POST" ∨ m = "PUT" then (false, true) else (true, false))
  ∧ (effectiveMethods (defaultParamMethod m) v = (true, true) →
       v.allow_GET = true ∧ v.allow_POST = true) := by
  constructor
  · intro hG hP
    by_cases hm : m = "POST" ∨ m = "PUT"
    · have hb : (m == "POST" || m == "PUT") = true := by
        rcases hm with h | h <;> simp [h]
      simp [effectiveMethods, defaultParamMethod, hG, hP, hb, hm]
    · have hb : (m == "POST" || m == "PUT") = false := by
        push_neg at hm
        simp [hm.1, hm.2]
      simp [effectiveMethods, defaultParamMethod, hG, hP, hb, hm]
  · intro h
    simp only [effectiveMethods, Prod.mk.injEq] at h
    by_cases hud : (!v.allow_GET && !v.allow_POST) = true
    · rw [if_pos hud, if_pos hud] at h
      exfalso
      have h1 := eq_of_beq h.1
      have h2 := eq_of_beq h.2
      rw [h1] at h2
      exact absurd h2 (by decide)
    · rw [if_neg hud, if_neg hud] at h
      exact ⟨h.1, h.2⟩

def c4spec : ParamValidator := { param_name := "x", param_type := .pInt }

/-- Witness for C4: with no explicit method, a PUT request allows
exactly the POST source. -/
theorem default_method_rule_witness :
    effectiveMethods (defaultParamMethod "PUT") c4spec = (false, true) := by
  have h := (default_method_rule "PUT" c4spec).1 rfl rfl
  simpa using h

def emptyReq : Request := { method := "GET", GET := [], DATA := [] }

/-- C7, confirmed: when the looked-up value is absent or a falsy
sentinel (so `truthy` is false on it — covering `None`, empty strings,
empty lists and zero), a non-optional spec rejects the parameter with
the MissingParameter message and an optional spec binds the default
value; in the optional case the result is the default for every spec,
whatever its type or bounds, so coercion and constraint checking are
skipped. -/
theorem absent_param_handling (dpm : String) (req : Request)
    (v : ParamValidator)
    (habs : truthy (findParam req (effectiveMethods dpm v).1
      (effectiveMethods dpm v).2 v.param_name).1 = false) :
    (v.optional = false → processParam dpm req v = Except.error "Param is missing")
  ∧ (v.optional = true → processParam dpm req v = Except.ok v.default) := by
  constructor <;> intro h <;> simp [processParam, habs, h]

def c7spec : ParamValidator :=
  { param_name := "n", param_type := .pInt, optional := true, default := .vInt 7 }

/-- Witness for C7: an optional parameter absent from an empty request
binds its configured default. -/
theorem absent_param_handling_witness :
    processParam "GET" emptyReq c7spec = Except.ok (.vInt 7) := by
  have h := (absent_param_handling "GET" emptyReq c7spec rfl).2 rfl
  simpa using h

/-- C10, confirmed: a `many` parameter that is optional and absent
falls back to the configured default exactly as configured — line 204
of the source binds `validator.default` without wrapping, and line 222
is never reached — so the handler can receive a non-sequence value
(such as None) for a `many` parameter. -/
theorem many_default_unwrapped (arg : String) (req : Request)
    (v : ParamValidator) (_hmany : v.many = true) (hopt : v.optional = true)
    (habs : truthy (findParam req
      (effectiveMethods (defaultParamMethod req.method) v).1
      (effectiveMethods (defaultParamMethod req.method) v).2 v.param_name).1 = false) :
    processParam (defaultParamMethod req.method) req v = Except.ok v.default
  ∧ wrapped_request_fn [(arg, v)] req [] = CallOutcome.callHandler [(arg, v.default)] := by
  have h1 : processParam (defaultParamMethod req.method) req v = Except.ok v.default := by
    simp [processParam, habs, hopt]
  refine ⟨h1, ?_⟩
  simp [wrapped_request_fn, runValidators, h1, setKw]

def c10spec : ParamValidator :=
  { param_name := "ids", param_type := .pInt, many := true, optional := true }

/-- Witness for C10: an absent optional many parameter reaches the
handler as the default None, not as a sequence. -/
theorem many_default_unwrapped_witness :
    wrapped_request_fn [("ids", c10spec)] emptyReq []
      = CallOutcome.callHandler [("ids", Val.vNone)] := by
  have h := (many_default_unwrapped "ids" emptyReq c10spec rfl rfl rfl).2
  simpa using h

/-- C5, confirmed: the POST-sourced mapping is consulted first whenever
POST is allowed and its (truthy) value wins; the GET-sourced mapping is
consulted when POST is not allowed or the POST lookup yielded nothing
(absent or a falsy sentinel, which the absence rule of C7 treats as
missing); and a value present only in a disallowed source is invisible,
so a non-optional GET-only parameter whose value sits only in the POST
data draws a 400 MissingParameter response, whatever the POST mapping
contains. -/
theorem source_selection (req : Request) (name arg : String)
    (v : ParamValidator) (kwargs : List (String × Val)) :
    (∀ pv, dictGet req.DATA name = some pv → truthy pv = true →
       ∀ aG : Bool, findParam req aG true name = (pv, "POST"))
  ∧ (∀ aP : Bool,
       (aP = false ∨ truthy ((dictGet req.DATA name).getD .vNone) = false) →
       findParam req true aP name = ((dictGet req.GET name).getD .vNone, "GET"))
  ∧ (v.allow_GET = true → v.allow_POST = false → v.optional = false →
     dictGet req.GET v.param_name = none →
       wrapped_request_fn [(arg, v)] req kwargs
         = CallOutcome.errorResponse HTTP_400_BAD_REQUEST
             ("Invalid param \"" ++ v.param_name ++ "\": " ++ "Param is missing")) := by
  refine ⟨?_, ?_, ?_⟩
  · intro pv h ht aG
    simp [findParam, h, ht]
  · intro aP h
    rcases h with h | h
    · subst h
      simp [findParam, truthy]
    · cases aP
      · simp [findParam, truthy]
      · simp [findParam, h]
  · intro hG hP hOpt hAbs
    have hfind : findParam req (effectiveMethods (defaultParamMethod req.method) v).1
        (effectiveMethods (defaultParamMethod req.method) v).2 v.param_name
        = (.vNone, "GET") := by
      simp [findParam, effectiveMethods, hG, hP, hAbs, truthy]
    have hproc : processParam (defaultParamMethod req.method) req v
        = Except.error "Param is missing" := by
      simp [processParam, hfind, truthy, hOpt]
    simp [wrapped_request_fn, runValidators, hproc]

def c5spec : ParamValidator :=
  { param_name := "x", param_type := .pInt, allow_GET := true }

def c5req : Request :=
  { method := "POST", GET := [], DATA := [("x", .vInt 5)] }

/-- Witness for C5: a GET-only parameter carried only in the POST data
of a POST request is invisible and yields a 400. -/
theorem source_selection_witness :
    wrapped_request_fn [("x", c5spec)] c5req []
      = CallOutcome.errorResponse HTTP_400_BAD_REQUEST
          "Invalid param \"x\": Param is missing" := by
  have h := (source_selection c5req "x" "x" c5spec []).2.2 rfl rfl rfl rfl
  simpa using h

/-- C1, confirmed: whenever the parameters before `v` in iteration
order all validate and `v` fails with reason `e`, the decorated
function returns the 400 response whose body is the error envelope
naming `v.param_name` (the request_name) and `e` — for every possible
tail of later validators (none of which is evaluated) — and the wrapped
handler is never invoked. -/
theorem first_failure_short_circuits (pre post : List (String × ParamValidator))
    (arg : String) (v : ParamValidator) (req : Request)
    (kwargs : List (String × Val)) (e : String)
    (hpre : ∀ p ∈ pre, ∃ val,
      processParam (defaultParamMethod req.method) req p.2 = Except.ok val)
    (hfail : processParam (defaultParamMethod req.method) req v = Except.error e) :
    wrapped_request_fn (pre ++ (arg, v) :: post) req kwargs
      = CallOutcome.errorResponse HTTP_400_BAD_REQUEST
          ("Invalid param \"" ++ v.param_name ++ "\": " ++ e)
  ∧ ∀ kw, wrapped_request_fn (pre ++ (arg, v) :: post) req kwargs
      ≠ CallOutcome.callHandler kw := by
  have hmain : ∀ (pre' : List (String × ParamValidator)),
      (∀ p ∈ pre', ∃ val,
        processParam (defaultParamMethod req.method) req p.2 = Except.ok val) →
      ∀ kw0, runValidators (defaultParamMethod req.method) req
          (pre' ++ (arg, v) :: post) kw0
        = CallOutcome.errorResponse HTTP_400_BAD_REQUEST
            ("Invalid param \"" ++ v.param_name ++ "\": " ++ e) := by
    intro pre'
    induction pre' with
    | nil =>
      intro _ kw0
      simp [runValidators, hfail]
    | cons hd tl ih =>
      intro hp kw0
      obtain ⟨val, hval⟩ := hp hd (List.mem_cons_self hd tl)
      have htl : ∀ p ∈ tl, ∃ val,
          processParam (defaultParamMethod req.method) req p.2 = Except.ok val :=
        fun p hp' => hp p (List.mem_cons_of_mem hd hp')
      obtain ⟨a, w⟩ := hd
      simp only [List.cons_append, runValidators, hval]
      exact ih htl _
  have h1 := hmain pre hpre kwargs
  refine ⟨h1, ?_⟩
  intro kw
  rw [wrapped_request_fn, h1]
  simp

def c1okSpec : ParamValidator :=
  { param_name := "a", param_type := .pInt, optional := true }

def c1failSpec : ParamValidator := { param_name := "b", param_type := .pInt }

def c1laterSpec : ParamValidator := { param_name := "c", param_type := .pInt }

/-- Witness for C1: with three declared parameters on an empty GET
request, the first required one ("b") fails and its 400 envelope is
returned; the validator for "c" is never consulted. -/
theorem first_failure_short_circuits_witness :
    wrapped_request_fn [("a", c1okSpec), ("b", c1failSpec), ("c", c1laterSpec)]
        emptyReq []
      = CallOutcome.errorResponse HTTP_400_BAD_REQUEST
          "Invalid param \"b\": Param is missing" := by
  have h := (first_failure_short_circuits [("a", c1okSpec)] [("c", c1laterSpec)]
    "b" c1failSpec emptyReq [] "Param is missing"
    (by
      intro p hp
      simp only [List.mem_singleton] at hp
      subst hp
      exact ⟨.vNone, rfl⟩)
    rfl).1
  simpa using h

def c6spec : ParamValidator :=
  { param_name := "user_ids", param_type := .pInt, many := true }

def c6getReq : Request :=
  { method := "GET", GET := [("user_ids", .vStr "98,99,100")], DATA := [] }

/-- A value that is not a Python list is wrapped (`(param,)`, src line
212) rather than used as a sequence. -/
theorem nonlistWrap (p : Val) :
    p.isVList = false →
    (match p with
      | Val.vList vs => vs
      | p => [p]) = [p] := by
  cases p <;> intro h <;> simp [Val.isVList] at h ⊢

/-- C6, confirmed: for a `many` parameter, a GET-sourced value is split
on commas into raw tokens, every token is type-coerced and then every
coerced element constraint-checked, and the bound result is the ordered
sequence of coerced elements — concretely, the raw GET value
"98,99,100" yields the list of integers 98, 99, 100; a POST-sourced
value is used as-is when it is a list and is wrapped into a one-element
sequence otherwise. -/
theorem many_parsing :
    (wrapped_request_fn [("user_ids", c6spec)] c6getReq []
       = CallOutcome.callHandler
           [("user_ids", .vList [.vInt 98, .vInt 99, .vInt 100])])
  ∧ (∀ (dpm : String) (req : Request) (v : ParamValidator) (s : String)
       (cs : List Val),
       v.allow_GET = true → v.allow_POST = false → v.many = true →
       dictGet req.GET v.param_name = some (.vStr s) → s ≠ "" →
       List.mapM v.check_type ((pySplitComma s).map Val.vStr) = Except.ok cs →
       List.forM cs v.check_value = Except.ok () →
       processParam dpm req v = Except.ok (.vList cs))
  ∧ (∀ (dpm : String) (req : Request) (v : ParamValidator) (vs cs : List Val),
       v.allow_POST = true → v.many = true →
       dictGet req.DATA v.param_name = some (.vList vs) → vs ≠ [] →
       List.mapM v.check_type vs = Except.ok cs →
       List.forM cs v.check_value = Except.ok () →
       processParam dpm req v = Except.ok (.vList cs))
  ∧ (∀ (dpm : String) (req : Request) (v : ParamValidator) (p c : Val),
       v.allow_POST = true → v.many = true →
       dictGet req.DATA v.param_name = some p → truthy p = true →
       p.isVList = false →
       v.check_type p = Except.ok c → v.check_value c = Except.ok () →
       processParam dpm req v = Except.ok (.vList [c])) := by
  refine ⟨rfl, ?_, ?_, ?_⟩
  · intro dpm req v s cs hG hP hmany hget hs hmap hchk
    have hfind : findParam req (effectiveMethods dpm v).1
        (effectiveMethods dpm v).2 v.param_name = (.vStr s, "GET") := by
      simp [findParam, effectiveMethods, hG, hP, hget, truthy]
    have ht : truthy (Val.vStr s) = true := by
      simp [truthy, hs]
    simp only [List.mapM] at hmap
    simp [processParam, hfind, ht, hmany, pyStr, hmap, hchk]
  · intro dpm req v vs cs hP hmany hget hvs hmap hchk
    have ht : truthy (Val.vList vs) = true := by
      simp [truthy, hvs]
    have hfind : findParam req (effectiveMethods dpm v).1
        (effectiveMethods dpm v).2 v.param_name = (.vList vs, "POST") := by
      have hm : (effectiveMethods dpm v).2 = true := by
        simp [effectiveMethods, hP]
      simp [findParam, hm, hget, ht]
    simp only [List.mapM] at hmap
    simp [processParam, hfind, ht, hmany, hmap, hchk]
  · intro dpm req v p c hP hmany hget ht hlist hcoerce hchk
    have hfind : findParam req (effectiveMethods dpm v).1
        (effectiveMethods dpm v).2 v.param_name = (p, "POST") := by
      have hm : (effectiveMethods dpm v).2 = true := by
        simp [effectiveMethods, hP]
      simp [findParam, hm, hget, ht]
    simp only [processParam, hfind, ht, hmany]
    rw [nonlistWrap p hlist]
    simp [List.mapM, List.mapM.loop, List.forM, hcoerce, hchk]

def c6postSpec : ParamValidator :=
  { param_name := "user_ids", param_type := .pInt, many := true,
    allow_POST := true }

def c6postReq : Request :=
  { method := "POST", GET := [], DATA := [("user_ids", .vInt 100)] }

/-- Witness for C6: a single scalar POST value under a many spec is
wrapped into a one-element sequence of the coerced value. -/
theorem many_parsing_witness :
    processParam "POST" c6postReq c6postSpec
      = Except.ok (.vList [.vInt 100]) := by
  have h := many_parsing.2.2.2 "POST" c6postReq c6postSpec (.vInt 100)
    (.vInt 100) rfl rfl rfl rfl rfl rfl rfl
  simpa using h

def intGtValidator (g : Rat) : ParamValidator :=
  { param_name := "x", param_type := .pInt, gt := some g }

def floatGtValidator (g : Rat) : ParamValidator :=
  { param_name := "x", param_type := .pFloat, gt := some g }

def strGtValidator (g : Rat) : ParamValidator :=
  { param_name := "x", param_type := .pStr, gt := some g }

/-- C2, counterexample: with gt=10 set on an integer spec the value 0
satisfies 0 ≤ 10, so the claim demands rejection with a constraint
violation, but `check_value` accepts it — `if val:` (src line 84) skips
every bound check when the coerced value is falsy. -/
theorem gt_bound_skipped_at_zero :
    (intGtValidator 10).gt = some 10 ∧ ((0 : Rat) ≤ 10)
  ∧ (intGtValidator 10).check_value (.vInt 0) = Except.ok () :=
  ⟨rfl, by norm_num, rfl⟩

/-- C2, amended: bounds are enforced against the coerced value for
Scalar(integer)/Scalar(float) and against the length for Scalar(text),
but only under Python truthiness of both sides: with gt=g set and
g ≠ 0, every nonzero value (or length) v with v ≤ g is rejected with a
constraint violation and every v with v > g is accepted; a zero value
is always accepted and a bound of 0 is inert; for all other kinds
check_value is a no-op. -/
theorem bound_enforcement_amended (g : Rat) :
    (∀ n : Int, g ≠ 0 → n ≠ 0 → (n : Rat) ≤ g →
       (intGtValidator g).check_value (.vInt n)
         = Except.error ("Value " ++ ("must be greater than " ++ toString g ++ "!")))
  ∧ (∀ n : Int, g < (n : Rat) →
       (intGtValidator g).check_value (.vInt n) = Except.ok ())
  ∧ (∀ q : Rat, g ≠ 0 → q ≠ 0 → q ≤ g →
       (floatGtValidator g).check_value (.vFloat q)
         = Except.error ("Value " ++ ("must be greater than " ++ toString g ++ "!")))
  ∧ (∀ q : Rat, g < q →
       (floatGtValidator g).check_value (.vFloat q) = Except.ok ())
  ∧ (∀ s : String, s.length ≠ 0 → g ≠ 0 → (s.length : Rat) ≤ g →
       (strGtValidator g).check_value (.vStr s)
         = Except.error ("Length " ++ ("must be greater than " ++ toString g ++ "!")))
  ∧ (∀ s : String, g < (s.length : Rat) →
       (strGtValidator g).check_value (.vStr s) = Except.ok ())
  ∧ ((intGtValidator g).check_value (.vInt 0) = Except.ok ())
  ∧ (∀ n : Int, (intGtValidator 0).check_value (.vInt n) = Except.ok ())
  ∧ (∀ (v : ParamValidator) (p : Val), v.param_type.usesBounds = false →
       v.check_value p = Except.ok ()) := by
  refine ⟨?_, ?_, ?_, ?_, ?_, ?_, ?_, ?_, ?_⟩
  · intro n hg hn hle
    have hne : ((n : Rat)) ≠ 0 := by
      simpa using hn
    simp [ParamValidator.check_value, ParamValidator.checkBoundsVal,
      intGtValidator, Val.asRat, bSet, PType.isStr, hg, hne, hle]
  · intro n h
    by_cases hn0 : ((n : Rat)) = 0
    · simp [ParamValidator.check_value, intGtValidator, Val.asRat, hn0]
    · simp [ParamValidator.check_value, ParamValidator.checkBoundsVal,
        intGtValidator, Val.asRat, bSet, hn0, not_le.mpr h]
  · intro q hg hq hle
    simp [ParamValidator.check_value, ParamValidator.checkBoundsVal,
      floatGtValidator, Val.asRat, bSet, PType.isStr, hg, hq, hle]
  · intro q h
    by_cases hq0 : q = 0
    · simp [ParamValidator.check_value, floatGtValidator, Val.asRat, hq0]
    · simp [ParamValidator.check_value, ParamValidator.checkBoundsVal,
        floatGtValidator, Val.asRat, bSet, hq0, not_le.mpr h]
  · intro s hlen hg hle
    have hne : ((s.length : Rat)) ≠ 0 := by
      simpa using hlen
    simp [ParamValidator.check_value, ParamValidator.checkBoundsVal,
      strGtValidator, bSet, PType.isStr, hg, hne, hle]
  · intro s h
    by_cases h0 : ((s.length : Rat)) = 0
    · simp [ParamValidator.check_value, strGtValidator, h0]
    · simp [ParamValidator.check_value, ParamValidator.checkBoundsVal,
        strGtValidator, bSet, h0, not_le.mpr h]
  · simp [ParamValidator.check_value, intGtValidator, Val.asRat]
  · intro n
    by_cases hn0 : ((n : Rat)) = 0
    · simp [ParamValidator.check_value, intGtValidator, Val.asRat, hn0]
    · simp [ParamValidator.check_value, ParamValidator.checkBoundsVal,
        intGtValidator, Val.asRat, bSet, hn0]
  · intro v p h
    obtain ⟨pn, pt, aG, aP, g', ge', l', le', e', o', d', mn', df', fl'⟩ := v
    cases pt <;> simp_all [ParamValidator.check_value, PType.usesBounds]

/-- Witness for the amended C2: gt=10 rejects the nonzero value 3 and
accepts 11. -/
theorem bound_enforcement_amended_witness :
    (intGtValidator 10).check_value (.vInt 3)
      = Except.error ("Value " ++ ("must be greater than " ++ toString (10 : Rat) ++ "!"))
  ∧ (intGtValidator 10).check_value (.vInt 11) = Except.ok () :=
  ⟨(bound_enforcement_amended 10).1 3 (by norm_num) (by norm_num) (by norm_num),
   (bound_enforcement_amended 10).2.1 11 (by norm_num)⟩

def c3eqSpec : ParamValidator :=
  { param_name := "x", param_type := .pInt, eq := some 0 }

/-- C3, counterexample: eq is set (to 0) and the checked value 5
mismatches it, so the claim demands an immediate failure, but
`check_value` accepts the value — `if self.eq` (src line 86) treats
the bound 0 as unset. -/
theorem eq_bound_zero_ignored :
    c3eqSpec.eq = some 0 ∧ ((5 : Rat) ≠ 0)
  ∧ c3eqSpec.check_value (.vInt 5) = Except.ok () :=
  ⟨rfl, by norm_num, rfl⟩

/-- C3, amended: a zero value (or length) bypasses all bound checks,
and a bound set to 0 counts as unset; otherwise, on the derived
nonzero numeric value x: if eq is set (nonzero) and x mismatches it,
the check fails immediately (with the eq message, whose text reads
"less than" in the source) and no other bound is consulted; if eq is
unset, zero, or matches, the bounds fire in the fixed order lt, lte,
gt, gte — the first violated set bound is reported and the remaining
bounds are not consulted. -/
theorem bound_order_amended (v : ParamValidator) (x : Rat) :
    (∀ w : ParamValidator, w.check_value (.vInt 0) = Except.ok ())
  ∧ (∀ w : ParamValidator, w.check_value (.vStr "") = Except.ok ())
  ∧ (bSet v.eq = true → x ≠ v.eq.getD 0 →
       v.checkBoundsVal x
         = Except.error ("must be less than " ++ toString (v.eq.getD 0) ++ "!"))
  ∧ (bSet v.eq = false ∨ x = v.eq.getD 0 →
       (bSet v.lt = true → v.lt.getD 0 ≤ x →
          v.checkBoundsVal x
            = Except.error ("must be less than " ++ toString (v.lt.getD 0) ++ "!"))
     ∧ (¬(bSet v.lt = true ∧ v.lt.getD 0 ≤ x) →
          (bSet v.lte = true → v.lte.getD 0 < x →
             v.checkBoundsVal x
               = Except.error ("must be less than or equal to "
                   ++ toString (v.lte.getD 0) ++ "!"))
        ∧ (¬(bSet v.lte = true ∧ v.lte.getD 0 < x) →
             (bSet v.gt = true → x ≤ v.gt.getD 0 →
                v.checkBoundsVal x
                  = Except.error ("must be greater than "
                      ++ toString (v.gt.getD 0) ++ "!"))
           ∧ (¬(bSet v.gt = true ∧ x ≤ v.gt.getD 0) →
                (bSet v.gte = true → x < v.gte.getD 0 →
                   v.checkBoundsVal x
                     = Except.error ("must be greater than or equal to "
                         ++ toString (v.gte.getD 0) ++ "!"))
              ∧ (¬(bSet v.gte = true ∧ x < v.gte.getD 0) →
                   v.checkBoundsVal x = Except.ok ()))))) := by
  refine ⟨?_, ?_, ?_, ?_⟩
  · intro w
    obtain ⟨pn, pt, aG, aP, g', ge', l', le', e', o', d', mn', df', fl'⟩ := w
    cases pt <;> simp [ParamValidator.check_value, Val.asRat]
  · intro w
    obtain ⟨pn, pt, aG, aP, g', ge', l', le', e', o', d', mn', df', fl'⟩ := w
    cases pt <;> simp [ParamValidator.check_value, Val.asRat]
  · intro hb hne
    simp [ParamValidator.checkBoundsVal, hb, hne]
  · intro he
    have hceq : (bSet v.eq && !(decide (x = v.eq.getD 0))) = false := by
      rcases he with h | h
      · simp [h]
      · simp [h]
    constructor
    · intro hb hle
      simp [ParamValidator.checkBoundsVal, hceq, hb, ge_iff_le, hle]
    · intro hn
      have hclt : (bSet v.lt && decide (x ≥ v.lt.getD 0)) = false := by
        by_cases hb : bSet v.lt = true
        · have hx : ¬(v.lt.getD 0 ≤ x) := fun hle => hn ⟨hb, hle⟩
          simp [hb, ge_iff_le, hx]
        · simp [Bool.not_eq_true] at hb
          simp [hb]
      constructor
      · intro hb hlt2
        simp [ParamValidator.checkBoundsVal, hceq, hclt, hb, gt_iff_lt, hlt2]
      · intro hn2
        have hclte : (bSet v.lte && decide (x > v.lte.getD 0)) = false := by
          by_cases hb : bSet v.lte = true
          · have hx : ¬(v.lte.getD 0 < x) := fun hlt' => hn2 ⟨hb, hlt'⟩
            simp [hb, gt_iff_lt, hx]
          · simp [Bool.not_eq_true] at hb
            simp [hb]
        constructor
        · intro hb hle2
          simp [ParamValidator.checkBoundsVal, hceq, hclt, hclte, hb, hle2]
        · intro hn3
          have hcgt : (bSet v.gt && decide (x ≤ v.gt.getD 0)) = false := by
            by_cases hb : bSet v.gt = true
            · have hx : ¬(x ≤ v.gt.getD 0) := fun hle' => hn3 ⟨hb, hle'⟩
              simp [hb, hx]
            · simp [Bool.not_eq_true] at hb
              simp [hb]
          constructor
          · intro hb hlt3
            simp [ParamValidator.checkBoundsVal, hceq, hclt, hclte, hcgt, hb, hlt3]
          · intro hn4
            have hcgte : (bSet v.gte && decide (x < v.gte.getD 0)) = false := by
              by_cases hb : bSet v.gte = true
              · have hx : ¬(x < v.gte.getD 0) := fun hlt' => hn4 ⟨hb, hlt'⟩
                simp [hb, hx]
              · simp [Bool.not_eq_true] at hb
                simp [hb]
            simp [ParamValidator.checkBoundsVal, hceq, hclt, hclte, hcgt, hcgte]

def c3wSpec : ParamValidator :=
  { param_name := "s", param_type := .pStr, lt := some 5, gte := some 2 }

/-- Witness for the amended C3: with lt=5 and gte=2 both violated by
the length 28, the lt failure is the one reported. -/
theorem bound_order_amended_witness :
    c3wSpec.checkBoundsVal 28
      = Except.error ("must be less than " ++ toString ((5 : Rat)) ++ "!") :=
  ((bound_order_amended c3wSpec 28).2.2.2 (Or.inl rfl)).1 (by decide)
    (by show ((5 : Rat)) ≤ 28; norm_num)

end DjangoRestParams
